import Mathlib

/-!
Verification development for the MTG Monte Carlo Analyzer.

The definitions below are a shallow embedding of the repository's code:

* the Web-Worker message boundary (src/simulation/simulationWorker.js) and the
  configuration serialisation in App.jsx (serializeConfig / SET_FIELDS);
* the per-deck slot persistence round-trip (src/hooks/useDeckSlot.js:
  defaultDeckSlot / serializeDeckSlot);
* the chart-data preparation function (src/utils/uiHelpers.jsx:
  prepareChartData);
* the simulation engine (monteCarlo.js / simulationCore.js).  These two files
  are not part of the source snapshot - only their tests, documentation and
  callers are - so the engine-side definitions are modelled from the
  specification text and are marked as such in their doc comments.

JavaScript numbers are modelled as rationals, JavaScript Sets as their
insertion-ordered element lists (no duplicates), absent object fields as
Option, and thrown exceptions as Except.
-/

set_option autoImplicit false

namespace MTGMC

/-! ### JavaScript Set semantics at the worker boundary -/

/-- The JavaScript constructor call on a list of strings: duplicates are
dropped, so the result is the underlying element list without duplicates.
Used both by the worker rehydration and by defaultDeckSlot. -/
def jsNewSet (l : List String) : List String := l.dedup

/-- The scalar configuration fields that cross the worker boundary unchanged
(the object spread in the worker copies them verbatim). -/
structure BaseConfig where
  iterations : Nat
  turns : Nat
  handSize : Nat
  maxSequences : Nat
  commanderMode : Bool
  enableMulligans : Bool
  deriving DecidableEq, Repr

/-- The in-app simulation configuration assembled by buildSimConfig in
App.jsx: the nine Set-valued fields (selectedKeyCards plus the eight
disabled-category sets listed in SET_CONFIG_FIELDS / SET_FIELDS) are live
JavaScript Sets, modelled as duplicate-free string lists. -/
structure SimConfig where
  base : BaseConfig
  selectedKeyCards : List String
  disabledExploration : List String
  disabledRampSpells : List String
  disabledArtifacts : List String
  disabledCreatures : List String
  disabledRituals : List String
  disabledCostReducers : List String
  disabledDrawSpells : List String
  disabledTreasures : List String
  deriving DecidableEq, Repr

/-- The configuration as it travels inside the postMessage payload: each
Set field has been replaced by a plain array, and a field may be absent
from the message entirely (modelled with Option). -/
structure WireConfig where
  base : BaseConfig
  selectedKeyCards : Option (List String)
  disabledExploration : Option (List String)
  disabledRampSpells : Option (List String)
  disabledArtifacts : Option (List String)
  disabledCreatures : Option (List String)
  disabledRituals : Option (List String)
  disabledCostReducers : Option (List String)
  disabledDrawSpells : Option (List String)
  disabledTreasures : Option (List String)
  deriving DecidableEq, Repr

/-- serializeConfig from App.jsx: spreads the config and replaces each of the
nine SET_CONFIG_FIELDS by the array of its elements. -/
def serializeConfig (c : SimConfig) : WireConfig :=
  { base := c.base
    selectedKeyCards := some c.selectedKeyCards
    disabledExploration := some c.disabledExploration
    disabledRampSpells := some c.disabledRampSpells
    disabledArtifacts := some c.disabledArtifacts
    disabledCreatures := some c.disabledCreatures
    disabledRituals := some c.disabledRituals
    disabledCostReducers := some c.disabledCostReducers
    disabledDrawSpells := some c.disabledDrawSpells
    disabledTreasures := some c.disabledTreasures }

/-- The worker-side rehydration loop over SET_FIELDS in
simulationWorker.js: for each field it builds a Set from the incoming
array, defaulting an absent field to the empty array. -/
def rehydrateConfig (w : WireConfig) : SimConfig :=
  { base := w.base
    selectedKeyCards := jsNewSet (w.selectedKeyCards.getD [])
    disabledExploration := jsNewSet (w.disabledExploration.getD [])
    disabledRampSpells := jsNewSet (w.disabledRampSpells.getD [])
    disabledArtifacts := jsNewSet (w.disabledArtifacts.getD [])
    disabledCreatures := jsNewSet (w.disabledCreatures.getD [])
    disabledRituals := jsNewSet (w.disabledRituals.getD [])
    disabledCostReducers := jsNewSet (w.disabledCostReducers.getD [])
    disabledDrawSpells := jsNewSet (w.disabledDrawSpells.getD [])
    disabledTreasures := jsNewSet (w.disabledTreasures.getD []) }

/-! ### The Web-Worker message protocol (simulationWorker.js) -/

/-- The parsed-deck object forwarded opaquely through the worker boundary. -/
structure ParsedDeck where
  lands : List String
  spells : List String
  totalCards : Nat
  deriving DecidableEq, Repr

/-- The results object produced by the Monte Carlo engine and carried by a
RESULT message (per-turn means as rationals). -/
structure MCResults where
  landsPerTurn : List ℚ
  untappedLandsPerTurn : List ℚ
  handsKept : Nat
  deriving DecidableEq, Repr

/-- Messages posted by the worker via self.postMessage. -/
inductive WorkerOutMsg where
  | progress (deckId : String) (completed : Nat) (total : Nat)
  | result (deckId : String) (results : MCResults)
  | err (deckId : String) (message : String)
  deriving DecidableEq, Repr

/-- Messages received by the worker; anything whose type tag is not RUN is
modelled by the second constructor (the handler returns without posting). -/
inductive WorkerInMsg where
  | run (deckId : String) (deckToParse : ParsedDeck) (config : WireConfig)
  | other (ty : String)
  deriving DecidableEq, Repr

/-- One observed execution of the monteCarlo call inside the worker: the
sequence of (completed, total) pairs passed to the progress callback, and
either a normal return carrying results or a thrown error message. -/
structure RunBehavior where
  progressCalls : List (Nat × Nat)
  outcome : Except String MCResults

/-- self.onmessage from simulationWorker.js, parameterised by the engine
behaviour: ignores non-RUN messages; for a RUN message it rehydrates the
config, posts one PROGRESS message per callback invocation, then exactly one
RESULT message on normal return or one ERROR message (carrying the thrown
message) when monteCarlo throws. -/
def selfOnMessage (engine : ParsedDeck → SimConfig → RunBehavior) :
    WorkerInMsg → List WorkerOutMsg
  | .other _ => []
  | .run deckId deck config =>
    let behavior := engine deck (rehydrateConfig config)
    let progressMsgs :=
      behavior.progressCalls.map fun pc => WorkerOutMsg.progress deckId pc.1 pc.2
    match behavior.outcome with
    | .ok results => progressMsgs ++ [.result deckId results]
    | .error m => progressMsgs ++ [.err deckId m]

/-- A terminal message of a run: RESULT or ERROR (PROGRESS is not terminal). -/
def isTerminalMsg : WorkerOutMsg → Bool
  | .progress _ _ _ => false
  | .result _ _ => true
  | .err _ _ => true

/-! ### Deck-slot persistence (src/hooks/useDeckSlot.js) -/

/-- A per-card override value as stored in one of the five override maps
(manaOverrides, drawOverrides, treasureOverrides, ritualOverrides, and the
legacy plain-number form); carried through persistence untouched. -/
inductive OverrideValue where
  | num (n : Int)
  | fixedMode (value : Int)
  | scaling (base : Int) (growth : Int)
  | oneTime (amount : Int)
  | perTurn (amount : ℚ)
  deriving DecidableEq, Repr

/-- An override map, a JavaScript object keyed by lowercased card name. -/
def OverrideMap : Type := List (String × OverrideValue)

instance : DecidableEq OverrideMap := by
  unfold OverrideMap
  infer_instance

/-- The per-deck slot object created by defaultDeckSlot: persisted
configuration plus the runtime fields parsedDeck and simulationResults.
Set-valued fields are JavaScript Sets (duplicate-free string lists). -/
structure DeckSlot where
  deckText : String
  parsedDeck : Option ParsedDeck
  selectedKeyCards : List String
  includeArtifacts : Bool
  disabledArtifacts : List String
  includeCreatures : Bool
  disabledCreatures : List String
  manaOverrides : OverrideMap
  includeExploration : Bool
  disabledExploration : List String
  includeRampSpells : Bool
  disabledRampSpells : List String
  includeRituals : Bool
  disabledRituals : List String
  includeCostReducers : Bool
  disabledCostReducers : List String
  includeDrawSpells : Bool
  disabledDrawSpells : List String
  drawOverrides : OverrideMap
  includeTreasures : Bool
  disabledTreasures : List String
  treasureOverrides : OverrideMap
  ritualOverrides : OverrideMap
  simulationResults : Option MCResults
  deriving DecidableEq

/-- The JSON-safe persisted form produced by serializeDeckSlot: every field
may be absent when the object instead comes from old localStorage data,
Sets have become arrays, and the runtime fields are dropped. -/
structure SavedSlot where
  deckText : Option String
  selectedKeyCards : Option (List String)
  includeArtifacts : Option Bool
  disabledArtifacts : Option (List String)
  includeCreatures : Option Bool
  disabledCreatures : Option (List String)
  manaOverrides : Option OverrideMap
  includeExploration : Option Bool
  disabledExploration : Option (List String)
  includeRampSpells : Option Bool
  disabledRampSpells : Option (List String)
  includeRituals : Option Bool
  disabledRituals : Option (List String)
  includeCostReducers : Option Bool
  disabledCostReducers : Option (List String)
  includeDrawSpells : Option Bool
  disabledDrawSpells : Option (List String)
  drawOverrides : Option OverrideMap
  includeTreasures : Option Bool
  disabledTreasures : Option (List String)
  treasureOverrides : Option OverrideMap
  ritualOverrides : Option OverrideMap
  deriving DecidableEq

/-- defaultDeckSlot from useDeckSlot.js: builds a fresh slot from persisted
data, defaulting text to the empty string, include flags to true, override
maps to empty objects, rebuilding each Set from the saved array (or the
empty array when absent), and initialising the runtime fields parsedDeck
and simulationResults to null. -/
def defaultDeckSlot (saved : SavedSlot) : DeckSlot :=
  { deckText := saved.deckText.getD ""
    parsedDeck := none
    selectedKeyCards := jsNewSet (saved.selectedKeyCards.getD [])
    includeArtifacts := saved.includeArtifacts.getD true
    disabledArtifacts := jsNewSet (saved.disabledArtifacts.getD [])
    includeCreatures := saved.includeCreatures.getD true
    disabledCreatures := jsNewSet (saved.disabledCreatures.getD [])
    manaOverrides := saved.manaOverrides.getD []
    includeExploration := saved.includeExploration.getD true
    disabledExploration := jsNewSet (saved.disabledExploration.getD [])
    includeRampSpells := saved.includeRampSpells.getD true
    disabledRampSpells := jsNewSet (saved.disabledRampSpells.getD [])
    includeRituals := saved.includeRituals.getD true
    disabledRituals := jsNewSet (saved.disabledRituals.getD [])
    includeCostReducers := saved.includeCostReducers.getD true
    disabledCostReducers := jsNewSet (saved.disabledCostReducers.getD [])
    includeDrawSpells := saved.includeDrawSpells.getD true
    disabledDrawSpells := jsNewSet (saved.disabledDrawSpells.getD [])
    drawOverrides := saved.drawOverrides.getD []
    includeTreasures := saved.includeTreasures.getD true
    disabledTreasures := jsNewSet (saved.disabledTreasures.getD [])
    treasureOverrides := saved.treasureOverrides.getD []
    ritualOverrides := saved.ritualOverrides.getD []
    simulationResults := none }

/-- serializeDeckSlot from useDeckSlot.js: keeps exactly the persisted
fields (spreading each Set into an array, passing override maps through)
and drops parsedDeck and simulationResults. -/
def serializeDeckSlot (slot : DeckSlot) : SavedSlot :=
  { deckText := some slot.deckText
    selectedKeyCards := some slot.selectedKeyCards
    includeArtifacts := some slot.includeArtifacts
    disabledArtifacts := some slot.disabledArtifacts
    includeCreatures := some slot.includeCreatures
    disabledCreatures := some slot.disabledCreatures
    manaOverrides := some slot.manaOverrides
    includeExploration := some slot.includeExploration
    disabledExploration := some slot.disabledExploration
    includeRampSpells := some slot.includeRampSpells
    disabledRampSpells := some slot.disabledRampSpells
    includeRituals := some slot.includeRituals
    disabledRituals := some slot.disabledRituals
    includeCostReducers := some slot.includeCostReducers
    disabledCostReducers := some slot.disabledCostReducers
    includeDrawSpells := some slot.includeDrawSpells
    disabledDrawSpells := some slot.disabledDrawSpells
    drawOverrides := some slot.drawOverrides
    includeTreasures := some slot.includeTreasures
    disabledTreasures := some slot.disabledTreasures
    treasureOverrides := some slot.treasureOverrides
    ritualOverrides := some slot.ritualOverrides }

/-! ### Chart-data preparation (src/utils/uiHelpers.jsx: prepareChartData) -/

/-- Modelled from the spec: safeToFixed from src/utils/math.js, whose source
is absent from the snapshot (only its unit tests are present).  Per those
tests it is a null-safe rounding helper: an absent or non-numeric value
yields 0, otherwise the value is rounded to d decimal places and returned
as a number. -/
def safeToFixed (v : Option ℚ) (d : Nat) : ℚ :=
  match v with
  | none => 0
  | some q => (round (q * (10 : ℚ) ^ d) : ℤ) / (10 : ℚ) ^ d

/-- JavaScript optional-chained indexing a?.[i]: none when the array is
absent or the index is out of range. -/
def optIdx {α : Type} (o : Option (List α)) (i : Nat) : Option α :=
  o.bind fun l => l.get? i

/-- One entry of colorsByTurn: per-color means, any of which may be absent. -/
structure ColorRow where
  W : Option ℚ
  U : Option ℚ
  B : Option ℚ
  R : Option ℚ
  G : Option ℚ
  deriving DecidableEq, Repr

/-- The simulationResults object consumed by prepareChartData.  Every
per-turn statistic may be absent (the function reads them with optional
chaining); key-card playability objects are association lists from card
name to per-turn percentage array. -/
structure SimResultsJS where
  landsPerTurn : Option (List ℚ)
  landsPerTurnStdDev : Option (List ℚ)
  untappedLandsPerTurn : Option (List ℚ)
  untappedLandsPerTurnStdDev : Option (List ℚ)
  totalManaPerTurn : Option (List ℚ)
  totalManaPerTurnStdDev : Option (List ℚ)
  colorsByTurn : Option (List ColorRow)
  lifeLossPerTurn : Option (List ℚ)
  lifeLossPerTurnStdDev : Option (List ℚ)
  cardsDrawnPerTurn : Option (List ℚ)
  cardsDrawnPerTurnStdDev : Option (List ℚ)
  treasurePerTurn : Option (List ℚ)
  treasurePerTurnStdDev : Option (List ℚ)
  keyCardPlayability : Option (List (String × List ℚ))
  hasBurstCards : Bool
  keyCardPlayabilityBurst : Option (List (String × List ℚ))
  deriving DecidableEq, Repr

/-- A row of landsData. -/
structure LandsRow where
  turn : Nat
  totalLands : ℚ
  untappedLands : ℚ
  totalLandsLo : ℚ
  totalLandsHi : ℚ
  untappedLandsLo : ℚ
  untappedLandsHi : ℚ
  landsSd : ℚ
  untappedSd : ℚ
  deriving DecidableEq, Repr

/-- A row of manaByColorData. -/
structure ManaRow where
  turn : Nat
  totalMana : ℚ
  totalManaLo : ℚ
  totalManaHi : ℚ
  manaSd : ℚ
  W : ℚ
  U : ℚ
  B : ℚ
  R : ℚ
  G : ℚ
  deriving DecidableEq, Repr

/-- A row of lifeLossData, cardsDrawnData or treasureData: these three
chart arrays share the same shape (average, Lo/Hi band, std dev). -/
structure StatRow where
  turn : Nat
  avg : ℚ
  lo : ℚ
  hi : ℚ
  sd : ℚ
  deriving DecidableEq, Repr

/-- A row of keyCardsData: the turn number plus one column per key card
(and, when hasBurstCards, one extra burst column per card). -/
structure KeyRow where
  turn : Nat
  entries : List (String × ℚ)
  deriving DecidableEq, Repr

/-- The six chart arrays returned by prepareChartData. -/
structure ChartData where
  landsData : List LandsRow
  manaByColorData : List ManaRow
  lifeLossData : List StatRow
  cardsDrawnData : List StatRow
  treasureData : List StatRow
  keyCardsData : List KeyRow
  deriving DecidableEq, Repr

/-- The landsData row built on loop iteration i of prepareChartData. -/
def landsRowAt (res : SimResultsJS) (i : Nat) : LandsRow :=
  let landsAvg := (optIdx res.landsPerTurn i).getD 0
  let landsSd := (optIdx res.landsPerTurnStdDev i).getD 0
  let untappedAvg := (optIdx res.untappedLandsPerTurn i).getD 0
  let untappedSd := (optIdx res.untappedLandsPerTurnStdDev i).getD 0
  { turn := i + 1
    totalLands := safeToFixed (some landsAvg) 2
    untappedLands := safeToFixed (some untappedAvg) 2
    totalLandsLo := safeToFixed (some (max 0 (landsAvg - landsSd))) 2
    totalLandsHi := safeToFixed (some (landsAvg + landsSd)) 2
    untappedLandsLo := safeToFixed (some (max 0 (untappedAvg - untappedSd))) 2
    untappedLandsHi := safeToFixed (some (untappedAvg + untappedSd)) 2
    landsSd := safeToFixed (some landsSd) 2
    untappedSd := safeToFixed (some untappedSd) 2 }

/-- The manaByColorData row built on loop iteration i of prepareChartData. -/
def manaRowAt (res : SimResultsJS) (i : Nat) : ManaRow :=
  let manaAvg := (optIdx res.totalManaPerTurn i).getD 0
  let manaSd := (optIdx res.totalManaPerTurnStdDev i).getD 0
  { turn := i + 1
    totalMana := safeToFixed (some manaAvg) 2
    totalManaLo := safeToFixed (some (max 0 (manaAvg - manaSd))) 2
    totalManaHi := safeToFixed (some (manaAvg + manaSd)) 2
    manaSd := safeToFixed (some manaSd) 2
    W := safeToFixed ((optIdx res.colorsByTurn i).bind ColorRow.W) 2
    U := safeToFixed ((optIdx res.colorsByTurn i).bind ColorRow.U) 2
    B := safeToFixed ((optIdx res.colorsByTurn i).bind ColorRow.B) 2
    R := safeToFixed ((optIdx res.colorsByTurn i).bind ColorRow.R) 2
    G := safeToFixed ((optIdx res.colorsByTurn i).bind ColorRow.G) 2 }

/-- A generic banded statistic row (used for life loss, cards drawn and
treasure, which prepareChartData builds with identical arithmetic). -/
def statRowAt (avgArr sdArr : Option (List ℚ)) (i : Nat) : StatRow :=
  let avg := (optIdx avgArr i).getD 0
  let sd := (optIdx sdArr i).getD 0
  { turn := i + 1
    avg := safeToFixed (some avg) 2
    lo := safeToFixed (some (max 0 (avg - sd))) 2
    hi := safeToFixed (some (avg + sd)) 2
    sd := safeToFixed (some sd) 2 }

/-- The keyCardsData row built on loop iteration i: one column per key in
keyCardPlayability (rounded to 1 decimal), then, when hasBurstCards is
set, one burst column per key in keyCardPlayabilityBurst. -/
def keyRowAt (res : SimResultsJS) (i : Nat) : KeyRow :=
  let baseCols := (res.keyCardPlayability.getD []).map fun kv =>
    (kv.1, safeToFixed (kv.2.get? i) 1)
  let burstCols :=
    if res.hasBurstCards then
      (res.keyCardPlayabilityBurst.getD []).map fun kv =>
        (kv.1 ++ " (+burst)", safeToFixed (kv.2.get? i) 1)
    else []
  { turn := i + 1
    entries := baseCols ++ burstCols }

/-- prepareChartData from src/utils/uiHelpers.jsx: null results give null;
otherwise one row per turn index 0 ≤ i < turns is pushed onto each of the
six chart arrays. -/
def prepareChartData (simulationResults : Option SimResultsJS) (turns : Nat) :
    Option ChartData :=
  match simulationResults with
  | none => none
  | some res =>
    some
      { landsData := (List.range turns).map (landsRowAt res)
        manaByColorData := (List.range turns).map (manaRowAt res)
        lifeLossData := (List.range turns).map
          (statRowAt res.lifeLossPerTurn res.lifeLossPerTurnStdDev)
        cardsDrawnData := (List.range turns).map
          (statRowAt res.cardsDrawnPerTurn res.cardsDrawnPerTurnStdDev)
        treasureData := (List.range turns).map
          (statRowAt res.treasurePerTurn res.treasurePerTurnStdDev)
        keyCardsData := (List.range turns).map (keyRowAt res) }

/-! ### Mana Availability Calculator (spec section 4.1)

The engine files monteCarlo.js and simulationCore.js are not part of the
source snapshot (only their tests, callers and changelog entries are), so
the definitions in this section are modelled from the specification text. -/

/-- A mana color. -/
inductive Color where
  | W
  | U
  | B
  | R
  | G
  | C
  deriving DecidableEq, Repr

/-- The six colors, for exhaustive pip checks. -/
def allColors : List Color := [.W, .U, .B, .R, .G, .C]

/-- A scaling mana override: the source produces base plus growth for every
turn it has been on the battlefield. -/
structure ManaScaling where
  base : Nat
  growth : Nat
  deriving DecidableEq, Repr

/-- Modelled from the spec: a battlefield permanent as seen by
calculateManaAvailability in the missing simulationCore.js - a mutable
per-game copy carrying enteredOnTurn (immutable once set), its tapped
state, a fixed mana amount or a scaling override, the colors it produces,
and whether it is exempt from summoning sickness. -/
structure Permanent where
  name : String
  isLand : Bool
  tapped : Bool
  ignoresSummoningSickness : Bool
  enteredOnTurn : Nat
  manaAmount : Nat
  manaScaling : Option ManaScaling
  produces : List Color
  deriving DecidableEq, Repr

/-- Modelled from the spec (4.1): only non-summoning-sick sources count -
lands always tap; creatures and artifacts only if enteredOnTurn is before
the current turn, unless flagged otherwise. -/
def isActiveSource (p : Permanent) (currentTurn : Nat) : Bool :=
  p.isLand || p.ignoresSummoningSickness || decide (p.enteredOnTurn < currentTurn)

/-- Modelled from the spec (4.1): the amount a single source provides at
the current turn.  For a scaling source the amount is
base + growth * max(0, currentTurn - enteredOnTurn); natural-number
subtraction realises the max-with-0.  A fixed source provides manaAmount. -/
def sourceAmount (p : Permanent) (currentTurn : Nat) : Nat :=
  match p.manaScaling with
  | some s => s.base + s.growth * (currentTurn - p.enteredOnTurn)
  | none => p.manaAmount

/-- Modelled from the spec (4.1): total mana available from a battlefield
snapshot at the current turn - the sum over active sources of their
amounts (an inactive source contributes 0 on that call). -/
def manaTotal (battlefield : List Permanent) (currentTurn : Nat) : Nat :=
  (battlefield.map fun p =>
    if isActiveSource p currentTurn then sourceAmount p currentTurn else 0).sum

/-- Modelled from the spec (4.1): the per-color breakdown - an active
source contributes its amount to every color it produces. -/
def manaOfColor (battlefield : List Permanent) (currentTurn : Nat) (c : Color) : Nat :=
  (battlefield.map fun p =>
    if isActiveSource p currentTurn && decide (c ∈ p.produces) then
      sourceAmount p currentTurn
    else 0).sum

/-! ### Castability and the Monte Carlo driver statistics
(spec sections 4.3, 2.7, 8) -/

/-- A spell cost as the scheduler sees it: the effective total cost (mana
value minus any discount, already clamped at 0) plus the colored pips. -/
structure SpellCost where
  effectiveCost : Nat
  pips : List Color
  deriving DecidableEq, Repr

/-- Modelled from the spec (4.3): castable iff each colored-pip requirement
is independently satisfiable and total mana is at least the effective
cost. -/
def canPlayCard (battlefield : List Permanent) (currentTurn : Nat)
    (cost : SpellCost) : Bool :=
  decide (cost.effectiveCost ≤ manaTotal battlefield currentTurn) &&
    allColors.all fun c =>
      decide (cost.pips.count c ≤ manaOfColor battlefield currentTurn c)

/-- Modelled from the spec (2.5, 2.7): the per-iteration data the driver
aggregates - the battlefield snapshot recorded at the end of each turn of
one simulated game. -/
structure IterationTrace where
  battlefieldAt : Nat → List Permanent

/-- Total lands in a battlefield snapshot. -/
def countLands (battlefield : List Permanent) : Nat :=
  battlefield.countP (·.isLand)

/-- Untapped lands in a battlefield snapshot. -/
def countUntappedLands (battlefield : List Permanent) : Nat :=
  battlefield.countP fun p => p.isLand && !p.tapped

/-- Modelled from the spec (2.7): the driver's reported per-turn mean land
count - running sums over the N independent iterations divided by N. -/
def meanLandsAt (its : List IterationTrace) (t : Nat) : ℚ :=
  (its.map fun it => (countLands (it.battlefieldAt t) : ℚ)).sum / its.length

/-- Modelled from the spec (2.7): the per-turn mean untapped-land count. -/
def meanUntappedLandsAt (its : List IterationTrace) (t : Nat) : ℚ :=
  (its.map fun it => (countUntappedLands (it.battlefieldAt t) : ℚ)).sum / its.length

/-- The number of iterations in which the tracked key card is castable at
turn t (cost is a function of the turn so that discounts from cost
reducers already in play can lower it over time). -/
def playableCount (its : List IterationTrace) (cost : Nat → SpellCost) (t : Nat) : Nat :=
  its.countP fun it => canPlayCard (it.battlefieldAt t) t (cost t)

/-- Modelled from the spec (2.7, 3): the keyCardPlayability percentage for
turn t - the share of iterations in which the card was castable, as a
percentage. -/
def keyCardPlayabilityPct (its : List IterationTrace) (cost : Nat → SpellCost)
    (t : Nat) : ℚ :=
  100 * (playableCount its cost t : ℚ) / its.length

/-! ### Land Selection (spec section 4.2) -/

/-- Modelled from the spec: a land card in hand as the missing
selectBestLand of simulationCore.js sees it - fetch flag and activation
cost, bounce flag, and whether it would enter tapped (computed at
placement time from the current battlefield, passed in here already
evaluated). -/
structure LandCard where
  name : String
  isLand : Bool
  isFetch : Bool
  fetchCost : Nat
  isBounce : Bool
  entersTapped : Bool
  deriving DecidableEq, Repr

/-- Modelled from the spec (4.2): the priority class of a card for the
land drop, lower is better - none for a non-land; 0 for a fetch land
whose activation can be paid from the untapped mana remaining; 1 for an
untapped non-bounce land; 2 for a bounce land when a non-bounce land is
already in play to return; 3 for any remaining land. -/
def landPriorityClass (c : LandCard) (untappedMana : Nat)
    (nonBounceLandInPlay : Bool) : Option Nat :=
  if !c.isLand then none
  else if c.isFetch && decide (c.fetchCost ≤ untappedMana) then some 0
  else if !c.entersTapped && !c.isBounce then some 1
  else if c.isBounce && nonBounceLandInPlay then some 2
  else some 3

/-- Modelled from the spec (4.2): selectBestLand scans the priority
classes from highest (0) to lowest (3) and within a class takes the first
card in hand order. -/
def selectBestLand (hand : List LandCard) (untappedMana : Nat)
    (nonBounceLandInPlay : Bool) : Option LandCard :=
  (hand.find? fun c =>
      landPriorityClass c untappedMana nonBounceLandInPlay == some 0).orElse fun _ =>
  (hand.find? fun c =>
      landPriorityClass c untappedMana nonBounceLandInPlay == some 1).orElse fun _ =>
  (hand.find? fun c =>
      landPriorityClass c untappedMana nonBounceLandInPlay == some 2).orElse fun _ =>
  hand.find? fun c =>
    landPriorityClass c untappedMana nonBounceLandInPlay == some 3

/-! ### The seeded Monte Carlo driver (spec sections 2.7, 6, 7, 8) -/

/-- The engine configuration fields the modelled driver consumes. -/
structure EngineConfig where
  iterations : Nat
  turns : Nat
  handSize : Nat
  deriving DecidableEq, Repr

/-- A linear-congruential step: the explicit pseudo-random state threaded
through the driver (the page documents the engine as
deterministic-seeded per iteration). -/
def lcgNext (s : Nat) : Nat := (1103515245 * s + 12345) % 2147483648

/-- Fuel-indexed Fisher-Yates-style extraction shuffle driven by the LCG. -/
def shuffleGo : Nat → List LandCard → Nat → List LandCard
  | 0, _, _ => []
  | _ + 1, [], _ => []
  | fuel + 1, l@(_ :: _), s =>
    let i := s % l.length
    match l.get? i with
    | none => []
    | some c => c :: shuffleGo fuel (l.eraseIdx i) (lcgNext s)

/-- Shuffle a deck with the given seed. -/
def shuffleDeck (deck : List LandCard) (seed : Nat) : List LandCard :=
  shuffleGo deck.length deck seed

/-- The per-game zones of the modelled driver. -/
structure GameState where
  library : List LandCard
  hand : List LandCard
  battlefield : List (LandCard × Nat)
  deriving DecidableEq, Repr

/-- Untapped-mana estimate used for fetch affordability: one per land that
did not enter tapped this turn. -/
def untappedLandCount (gs : GameState) (t : Nat) : Nat :=
  gs.battlefield.countP fun pe => !pe.1.entersTapped || decide (pe.2 < t)

/-- One turn of the modelled driver: draw a card, then make the land drop
chosen by selectBestLand (a no-op turn when no land is playable). -/
def playTurn (t : Nat) (gs : GameState) : GameState :=
  let gs1 :=
    match gs.library with
    | [] => gs
    | c :: rest => { gs with hand := gs.hand ++ [c], library := rest }
  match selectBestLand gs1.hand (untappedLandCount gs1 t)
      (gs1.battlefield.any fun pe => !pe.1.isBounce) with
  | some c =>
    { gs1 with
        hand := gs1.hand.erase c
        battlefield := gs1.battlefield ++ [(c, t)] }
  | none => gs1

/-- Run one game from a shuffled library: deal the opening hand and play
the configured number of turns, recording the (total lands, untapped
lands) snapshot after each turn. -/
def runGame (shuffled : List LandCard) (cfg : EngineConfig) :
    List (Nat × Nat) :=
  let start : GameState :=
    { library := shuffled.drop cfg.handSize
      hand := shuffled.take cfg.handSize
      battlefield := [] }
  (List.range cfg.turns).foldl
    (fun acc i =>
      let t := i + 1
      let gs := playTurn t acc.1
      (gs, acc.2 ++
        [(gs.battlefield.length,
          gs.battlefield.countP fun pe => !pe.1.entersTapped || decide (pe.2 < t))]))
    (start, [])
  |>.2

/-- Pointwise sum of per-turn pair statistics. -/
def addStats (a b : List (Nat × Nat)) : List (Nat × Nat) :=
  a.zipWith (fun x y => (x.1 + y.1, x.2 + y.2)) b

/-- Modelled from the spec (2.7, 7a): the Monte Carlo driver monteCarlo.js,
absent from the snapshot.  Configuration errors - an empty deck or zero
iterations - fail fast with a descriptive error surfaced once before the
iteration loop starts; otherwise the driver runs the configured number of
independent seeded iterations, accumulates running sums and converts
them to per-turn means. -/
def monteCarloModel (deck : List LandCard) (cfg : EngineConfig) (seed : Nat) :
    Except String MCResults :=
  if deck.isEmpty then
    Except.error "Cannot run simulation: the deck is empty"
  else if cfg.iterations = 0 then
    Except.error "Cannot run simulation: iterations must be at least 1"
  else
    let zeros : List (Nat × Nat) := (List.range cfg.turns).map fun _ => (0, 0)
    let sums :=
      (List.range cfg.iterations).foldl
        (fun acc i =>
          addStats acc (runGame (shuffleDeck deck (seed + i)) cfg))
        zeros
    Except.ok
      { landsPerTurn := sums.map fun st => (st.1 : ℚ) / cfg.iterations
        untappedLandsPerTurn := sums.map fun st => (st.2 : ℚ) / cfg.iterations
        handsKept := cfg.iterations }

/-! ### Concrete fixtures used by the witness theorems -/

/-- A basic untapped land for concrete runs. -/
def forestCard : LandCard :=
  { name := "Forest"
    isLand := true
    isFetch := false
    fetchCost := 0
    isBounce := false
    entersTapped := false }

/-- A tapped-entry land. -/
def gatewayCard : LandCard :=
  { name := "Thornwood Falls"
    isLand := true
    isFetch := false
    fetchCost := 0
    isBounce := false
    entersTapped := true }

/-- A bounce land. -/
def bounceCard : LandCard :=
  { name := "Simic Growth Chamber"
    isLand := true
    isFetch := false
    fetchCost := 0
    isBounce := true
    entersTapped := true }

/-- A fetch land with activation cost 1. -/
def fetchCard : LandCard :=
  { name := "Evolving Wilds"
    isLand := true
    isFetch := true
    fetchCost := 1
    isBounce := false
    entersTapped := false }

/-- A non-land card (never selected for the land drop). -/
def spellCard : LandCard :=
  { name := "Counterspell"
    isLand := false
    isFetch := false
    fetchCost := 0
    isBounce := false
    entersTapped := false }

/-- A plain untapped land permanent already on the battlefield. -/
def forestPerm : Permanent :=
  { name := "Forest"
    isLand := true
    tapped := false
    ignoresSummoningSickness := false
    enteredOnTurn := 1
    manaAmount := 1
    manaScaling := none
    produces := [.G] }

/-- A scaling mana creature entering on turn 2 with base 1 and growth 1. -/
def scalingPerm : Permanent :=
  { name := "Marwyn, the Nurturer"
    isLand := false
    tapped := false
    ignoresSummoningSickness := false
    enteredOnTurn := 2
    manaAmount := 1
    manaScaling := some { base := 1, growth := 1 }
    produces := [.G] }

/-- A concrete iteration trace whose battlefield gains one forest per turn. -/
def sampleTrace : IterationTrace :=
  { battlefieldAt := fun t =>
      (List.range t).map fun i => { forestPerm with enteredOnTurn := i + 1 } }

/-- A one-iteration driver sample. -/
def sampleIts : List IterationTrace := [sampleTrace]

/-- A constant one-generic-mana cost with a single green pip. -/
def sampleCost : Nat → SpellCost := fun _ => { effectiveCost := 1, pips := [.G] }

/-- A concrete scalar config block. -/
def sampleBase : BaseConfig :=
  { iterations := 100
    turns := 7
    handSize := 7
    maxSequences := 1
    commanderMode := false
    enableMulligans := false }

/-- A concrete in-app simulation configuration. -/
def sampleConfig : SimConfig :=
  { base := sampleBase
    selectedKeyCards := ["Sol Ring", "Counterspell"]
    disabledExploration := []
    disabledRampSpells := ["Cultivate"]
    disabledArtifacts := []
    disabledCreatures := []
    disabledRituals := ["Dark Ritual"]
    disabledCostReducers := []
    disabledDrawSpells := []
    disabledTreasures := [] }

/-- A wire config with every Set field absent from the message. -/
def bareWireConfig : WireConfig :=
  { base := sampleBase
    selectedKeyCards := none
    disabledExploration := none
    disabledRampSpells := none
    disabledArtifacts := none
    disabledCreatures := none
    disabledRituals := none
    disabledCostReducers := none
    disabledDrawSpells := none
    disabledTreasures := none }

/-- A concrete deck slot with runtime fields populated. -/
def sampleSlot : DeckSlot :=
  { deckText := "4 Forest"
    parsedDeck := some { lands := ["Forest"], spells := [], totalCards := 4 }
    selectedKeyCards := ["Sol Ring"]
    includeArtifacts := false
    disabledArtifacts := ["Mana Crypt"]
    includeCreatures := true
    disabledCreatures := []
    manaOverrides := [("sol ring", .fixedMode 5)]
    includeExploration := true
    disabledExploration := []
    includeRampSpells := true
    disabledRampSpells := ["Cultivate"]
    includeRituals := false
    disabledRituals := []
    includeCostReducers := true
    disabledCostReducers := []
    includeDrawSpells := true
    disabledDrawSpells := []
    drawOverrides := []
    includeTreasures := true
    disabledTreasures := []
    treasureOverrides := [("xorn", .perTurn 2)]
    ritualOverrides := [("dark ritual", .num 3)]
    simulationResults := some { landsPerTurn := [1], untappedLandsPerTurn := [1], handsKept := 5 } }

/-- A concrete simulationResults object for the chart function. -/
def sampleResultsJS : SimResultsJS :=
  { landsPerTurn := some [1, 2]
    landsPerTurnStdDev := some [1/2, 1]
    untappedLandsPerTurn := some [1/2, 2]
    untappedLandsPerTurnStdDev := none
    totalManaPerTurn := none
    totalManaPerTurnStdDev := none
    colorsByTurn := none
    lifeLossPerTurn := some [0, 2]
    lifeLossPerTurnStdDev := some [0, 1]
    cardsDrawnPerTurn := none
    cardsDrawnPerTurnStdDev := none
    treasurePerTurn := none
    treasurePerTurnStdDev := none
    keyCardPlayability := some [("Sol Ring", [0, 455/10])]
    hasBurstCards := false
    keyCardPlayabilityBurst := none }

/-- A small concrete deck. -/
def sampleDeck : List LandCard := [forestCard, gatewayCard, forestCard, spellCard]

/-- A small engine configuration. -/
def sampleEngineConfig : EngineConfig :=
  { iterations := 2, turns := 3, handSize := 2 }

/-! ## Theorems -/

/-- C4: for every RUN message, the worker posts exactly one terminal
message - a RESULT carrying the results exactly when monteCarlo returns
normally, or an ERROR carrying the thrown message exactly when it throws
(so the two are mutually exclusive) - and posts nothing for a non-RUN
message. -/
theorem worker_run_exactly_one_terminal
    (engine : ParsedDeck → SimConfig → RunBehavior)
    (deckId : String) (deck : ParsedDeck) (config : WireConfig) :
    (selfOnMessage engine (.run deckId deck config)).countP isTerminalMsg = 1 ∧
    (∀ r : MCResults,
      WorkerOutMsg.result deckId r ∈ selfOnMessage engine (.run deckId deck config) ↔
        (engine deck (rehydrateConfig config)).outcome = .ok r) ∧
    (∀ m : String,
      WorkerOutMsg.err deckId m ∈ selfOnMessage engine (.run deckId deck config) ↔
        (engine deck (rehydrateConfig config)).outcome = .error m) ∧
    (∀ ty : String, selfOnMessage engine (.other ty) = []) := by
  refine ⟨?_, ?_, ?_, fun _ => rfl⟩ <;>
    · unfold selfOnMessage
      cases h : (engine deck (rehydrateConfig config)).outcome <;>
        simp [h, List.countP_append, List.countP_map, isTerminalMsg,
          Function.comp_def, List.countP_eq_zero, eq_comm]

/-- C5: serialising the nine Set-valued configuration fields to arrays in
App.jsx and rehydrating them to Sets in the worker is the identity on a
configuration (JavaScript Sets hold no duplicates, hence the Nodup
hypotheses), and a Set field absent from the incoming message rehydrates
to the empty Set. -/
theorem config_serialize_rehydrate_id (c : SimConfig) (w : WireConfig)
    (h1 : c.selectedKeyCards.Nodup)
    (h2 : c.disabledExploration.Nodup)
    (h3 : c.disabledRampSpells.Nodup)
    (h4 : c.disabledArtifacts.Nodup)
    (h5 : c.disabledCreatures.Nodup)
    (h6 : c.disabledRituals.Nodup)
    (h7 : c.disabledCostReducers.Nodup)
    (h8 : c.disabledDrawSpells.Nodup)
    (h9 : c.disabledTreasures.Nodup)
    (hw : w.selectedKeyCards = none ∧ w.disabledExploration = none ∧
      w.disabledRampSpells = none ∧ w.disabledArtifacts = none ∧
      w.disabledCreatures = none ∧ w.disabledRituals = none ∧
      w.disabledCostReducers = none ∧ w.disabledDrawSpells = none ∧
      w.disabledTreasures = none) :
    rehydrateConfig (serializeConfig c) = c ∧
    (rehydrateConfig w).selectedKeyCards = [] ∧
    (rehydrateConfig w).disabledExploration = [] ∧
    (rehydrateConfig w).disabledRampSpells = [] ∧
    (rehydrateConfig w).disabledArtifacts = [] ∧
    (rehydrateConfig w).disabledCreatures = [] ∧
    (rehydrateConfig w).disabledRituals = [] ∧
    (rehydrateConfig w).disabledCostReducers = [] ∧
    (rehydrateConfig w).disabledDrawSpells = [] ∧
    (rehydrateConfig w).disabledTreasures = [] := by
  obtain ⟨w1, w2, w3, w4, w5, w6, w7, w8, w9⟩ := hw
  cases c
  simp_all [rehydrateConfig, serializeConfig, jsNewSet, List.dedup_eq_self]

/-- C5 witness: the round trip and the absent-field default evaluated at a
concrete configuration and a concrete bare message. -/
theorem config_serialize_rehydrate_id_witness :
    rehydrateConfig (serializeConfig sampleConfig) = sampleConfig ∧
    (rehydrateConfig bareWireConfig).selectedKeyCards = [] ∧
    (rehydrateConfig bareWireConfig).disabledExploration = [] ∧
    (rehydrateConfig bareWireConfig).disabledRampSpells = [] ∧
    (rehydrateConfig bareWireConfig).disabledArtifacts = [] ∧
    (rehydrateConfig bareWireConfig).disabledCreatures = [] ∧
    (rehydrateConfig bareWireConfig).disabledRituals = [] ∧
    (rehydrateConfig bareWireConfig).disabledCostReducers = [] ∧
    (rehydrateConfig bareWireConfig).disabledDrawSpells = [] ∧
    (rehydrateConfig bareWireConfig).disabledTreasures = [] :=
  config_serialize_rehydrate_id sampleConfig bareWireConfig
    (by decide) (by decide) (by decide) (by decide) (by decide) (by decide)
    (by decide) (by decide) (by decide)
    ⟨rfl, rfl, rfl, rfl, rfl, rfl, rfl, rfl, rfl⟩

/-- C9: rebuilding a slot from its serialised form reproduces every
persisted configuration field (Sets rebuilt with the same elements,
override maps and flags unchanged) while resetting the runtime fields
parsedDeck and simulationResults to null. -/
theorem deckSlot_roundtrip (s : DeckSlot)
    (h1 : s.selectedKeyCards.Nodup)
    (h2 : s.disabledArtifacts.Nodup)
    (h3 : s.disabledCreatures.Nodup)
    (h4 : s.disabledExploration.Nodup)
    (h5 : s.disabledRampSpells.Nodup)
    (h6 : s.disabledRituals.Nodup)
    (h7 : s.disabledCostReducers.Nodup)
    (h8 : s.disabledDrawSpells.Nodup)
    (h9 : s.disabledTreasures.Nodup) :
    defaultDeckSlot (serializeDeckSlot s) =
      { s with parsedDeck := none, simulationResults := none } := by
  cases s
  simp_all [defaultDeckSlot, serializeDeckSlot, jsNewSet, List.dedup_eq_self]

/-- C9 witness: the round trip evaluated at a concrete slot whose runtime
fields are populated. -/
theorem deckSlot_roundtrip_witness :
    defaultDeckSlot (serializeDeckSlot sampleSlot) =
      { sampleSlot with parsedDeck := none, simulationResults := none } :=
  deckSlot_roundtrip sampleSlot
    (by decide) (by decide) (by decide) (by decide) (by decide) (by decide)
    (by decide) (by decide) (by decide)

/-! ### Helper lemmas about the mana calculator and driver statistics -/

/-- An untapped land is in particular a land. -/
theorem countUntappedLands_le_countLands (battlefield : List Permanent) :
    countUntappedLands battlefield ≤ countLands battlefield := by
  unfold countUntappedLands countLands
  apply List.countP_mono_left
  intro p _ hp
  simp_all

/-- A source active at a turn stays active at every later turn. -/
theorem isActiveSource_mono (p : Permanent) {t t' : Nat} (h : t ≤ t')
    (hact : isActiveSource p t = true) : isActiveSource p t' = true := by
  simp only [isActiveSource, Bool.or_eq_true, decide_eq_true_eq] at hact ⊢
  have hlt : p.enteredOnTurn < t → p.enteredOnTurn < t' := fun hh => lt_of_lt_of_le hh h
  tauto

/-- A source's amount never shrinks as the turn advances. -/
theorem sourceAmount_mono (p : Permanent) {t t' : Nat} (h : t ≤ t') :
    sourceAmount p t ≤ sourceAmount p t' := by
  unfold sourceAmount
  cases p.manaScaling with
  | none => exact le_refl _
  | some s =>
    have : t - p.enteredOnTurn ≤ t' - p.enteredOnTurn := Nat.sub_le_sub_right h _
    exact Nat.add_le_add_left (Nat.mul_le_mul_left _ this) _

/-- Total mana is monotone in the turn for a fixed battlefield. -/
theorem manaTotal_mono_turn (battlefield : List Permanent) {t t' : Nat}
    (h : t ≤ t') : manaTotal battlefield t ≤ manaTotal battlefield t' := by
  unfold manaTotal
  apply List.sum_le_sum
  intro p _
  by_cases hact : isActiveSource p t = true
  · rw [if_pos hact, if_pos (isActiveSource_mono p h hact)]
    exact sourceAmount_mono p h
  · simp [hact]

/-- Total mana splits over battlefield concatenation. -/
theorem manaTotal_append (b1 b2 : List Permanent) (t : Nat) :
    manaTotal (b1 ++ b2) t = manaTotal b1 t + manaTotal b2 t := by
  simp [manaTotal]

/-- Per-color mana is monotone in the turn for a fixed battlefield. -/
theorem manaOfColor_mono_turn (battlefield : List Permanent) {t t' : Nat}
    (h : t ≤ t') (c : Color) :
    manaOfColor battlefield t c ≤ manaOfColor battlefield t' c := by
  unfold manaOfColor
  apply List.sum_le_sum
  intro p _
  by_cases hact : isActiveSource p t = true
  · by_cases hpr : c ∈ p.produces
    · rw [if_pos (by simp [hact, hpr]),
        if_pos (by simp [isActiveSource_mono p h hact, hpr])]
      exact sourceAmount_mono p h
    · simp [hpr]
  · simp [hact]

/-- Per-color mana splits over battlefield concatenation. -/
theorem manaOfColor_append (b1 b2 : List Permanent) (t : Nat) (c : Color) :
    manaOfColor (b1 ++ b2) t c = manaOfColor b1 t c + manaOfColor b2 t c := by
  simp [manaOfColor]

/-- Castability is preserved by a later turn, an extended battlefield, and
a cost whose pips are unchanged and whose effective cost did not rise. -/
theorem canPlayCard_mono (b e : List Permanent) {t t' : Nat} (h : t ≤ t')
    (cost cost' : SpellCost) (hp : cost'.pips = cost.pips)
    (hc : cost'.effectiveCost ≤ cost.effectiveCost)
    (hplay : canPlayCard b t cost = true) :
    canPlayCard (b ++ e) t' cost' = true := by
  simp only [canPlayCard, Bool.and_eq_true, decide_eq_true_eq,
    List.all_eq_true] at hplay ⊢
  obtain ⟨h1, h2⟩ := hplay
  constructor
  · calc cost'.effectiveCost ≤ cost.effectiveCost := hc
      _ ≤ manaTotal b t := h1
      _ ≤ manaTotal b t' := manaTotal_mono_turn b h
      _ ≤ manaTotal (b ++ e) t' := by rw [manaTotal_append]; omega
  · intro c hcmem
    rw [hp]
    calc cost.pips.count c ≤ manaOfColor b t c := h2 c hcmem
      _ ≤ manaOfColor b t' c := manaOfColor_mono_turn b h c
      _ ≤ manaOfColor (b ++ e) t' c := by rw [manaOfColor_append]; omega

/-- C1: for every collection of iteration traces and every turn, the
reported mean untapped-land count never exceeds the reported mean
total-land count. -/
theorem mean_untapped_le_mean_total (its : List IterationTrace) (t : Nat) :
    meanUntappedLandsAt its t ≤ meanLandsAt its t := by
  unfold meanUntappedLandsAt meanLandsAt
  rcases Nat.eq_zero_or_pos its.length with h | h
  · rw [List.length_eq_zero.mp h]
    simp
  · have hlen : (0 : ℚ) < its.length := by exact_mod_cast h
    rw [div_le_div_iff_of_pos_right hlen]
    apply List.sum_le_sum
    intro it _
    exact_mod_cast countUntappedLands_le_countLands (it.battlefieldAt t)

/-- C7: a scaling mana source on the battlefield is credited with exactly
base + growth * max(0, currentTurn - enteredOnTurn) by the mana
availability calculator (stated compositionally: adding the source to a
battlefield raises the total by exactly that amount). -/
theorem scaling_source_amount (battlefield : List Permanent) (p : Permanent)
    (t : Nat) (s : ManaScaling) (hs : p.manaScaling = some s)
    (hact : isActiveSource p t = true) :
    manaTotal (p :: battlefield) t =
      (s.base + s.growth * Int.toNat (max 0 ((t : Int) - (p.enteredOnTurn : Int)))) +
        manaTotal battlefield t := by
  have hsub : t - p.enteredOnTurn = Int.toNat (max 0 ((t : Int) - (p.enteredOnTurn : Int))) := by
    omega
  simp [manaTotal, sourceAmount, hs, hact, hsub]

/-- C7 witness: the scaling creature entering on turn 2 contributes
1 + 1 * 2 mana on turn 4 on top of a one-forest battlefield. -/
theorem scaling_source_amount_witness :
    manaTotal (scalingPerm :: [forestPerm]) 4 =
      (1 + 1 * Int.toNat (max 0 ((4 : Int) - (2 : Int)))) + manaTotal [forestPerm] 4 :=
  scaling_source_amount [forestPerm] scalingPerm 4 { base := 1, growth := 1 }
    rfl (by decide)

/-- C2: for a tracked key card whose pips are fixed and whose effective
cost never increases, in a run whose per-iteration battlefields only
accumulate permanents, the per-turn keyCardPlayability percentage lies in
[0, 100] at every turn and is non-decreasing from each turn to the next. -/
theorem keyCardPlayability_bounds_and_monotone
    (its : List IterationTrace) (cost : Nat → SpellCost)
    (hgrow : ∀ it ∈ its, ∀ t : Nat,
      ∃ tail, it.battlefieldAt (t + 1) = it.battlefieldAt t ++ tail)
    (hpips : ∀ t : Nat, (cost (t + 1)).pips = (cost t).pips)
    (hcost : ∀ t : Nat, (cost (t + 1)).effectiveCost ≤ (cost t).effectiveCost)
    (t : Nat) :
    0 ≤ keyCardPlayabilityPct its cost t ∧
    keyCardPlayabilityPct its cost t ≤ 100 ∧
    keyCardPlayabilityPct its cost t ≤ keyCardPlayabilityPct its cost (t + 1) := by
  have hlen0 : (0 : ℚ) ≤ its.length := by positivity
  refine ⟨?_, ?_, ?_⟩
  · unfold keyCardPlayabilityPct
    positivity
  · unfold keyCardPlayabilityPct
    rcases Nat.eq_zero_or_pos its.length with h | h
    · simp [playableCount, List.length_eq_zero.mp h]
    · have hlen : (0 : ℚ) < its.length := by exact_mod_cast h
      rw [div_le_iff₀ hlen]
      have hcount : playableCount its cost t ≤ its.length :=
        List.countP_le_length _
      have : (playableCount its cost t : ℚ) ≤ its.length := by exact_mod_cast hcount
      nlinarith
  · unfold keyCardPlayabilityPct
    rcases Nat.eq_zero_or_pos its.length with h | h
    · simp [playableCount, List.length_eq_zero.mp h]
    · have hlen : (0 : ℚ) < its.length := by exact_mod_cast h
      have hcount : playableCount its cost t ≤ playableCount its cost (t + 1) := by
        unfold playableCount
        apply List.countP_mono_left
        intro it hit hplay
        obtain ⟨tail, htail⟩ := hgrow it hit t
        rw [htail]
        exact canPlayCard_mono (it.battlefieldAt t) tail (Nat.le_succ t)
          (cost t) (cost (t + 1)) (hpips t) (hcost t) hplay
      have hq : (playableCount its cost t : ℚ) ≤ playableCount its cost (t + 1) := by
        exact_mod_cast hcount
      rw [div_le_div_iff_of_pos_right hlen]
      nlinarith

/-- C2 witness: the bounds and one monotone step evaluated on a concrete
one-iteration run whose battlefield gains a forest each turn, tracking a
one-generic-one-green-pip cost. -/
theorem keyCardPlayability_bounds_and_monotone_witness :
    0 ≤ keyCardPlayabilityPct sampleIts sampleCost 1 ∧
    keyCardPlayabilityPct sampleIts sampleCost 1 ≤ 100 ∧
    keyCardPlayabilityPct sampleIts sampleCost 1 ≤ keyCardPlayabilityPct sampleIts sampleCost 2 :=
  keyCardPlayability_bounds_and_monotone sampleIts sampleCost
    (by
      intro it hit t
      simp only [sampleIts, List.mem_singleton] at hit
      subst hit
      exact ⟨[{ forestPerm with enteredOnTurn := t + 1 }],
        by simp [sampleTrace, List.range_succ]⟩)
    (fun _ => rfl) (fun _ => le_refl _) 1

/-! ### Helper lemmas for land selection -/

/-- find? over a split list whose prefix all fails and pivot succeeds. -/
theorem find?_split {α : Type} (p : α → Bool) (pre post : List α) (c : α)
    (hpre : ∀ d ∈ pre, p d = false) (hc : p c = true) :
    (pre ++ c :: post).find? p = some c := by
  induction pre with
  | nil =>
    simp only [List.nil_append]
    exact List.find?_cons_of_pos _ hc
  | cons a as ih =>
    simp only [List.cons_append]
    rw [List.find?_cons_of_neg]
    · exact ih fun d hd => hpre d (List.mem_cons_of_mem a hd)
    · simp [hpre a (List.mem_cons_self a as)]

/-- The land priority classes are exactly 0 through 3. -/
theorem landPriorityClass_le_three (c : LandCard) (mana : Nat) (nb : Bool)
    (k : Nat) (h : landPriorityClass c mana nb = some k) : k ≤ 3 := by
  unfold landPriorityClass at h
  split_ifs at h <;> simp_all <;> omega

/-- C8: the land drop picks from the highest non-empty priority class -
affordable fetch lands, then untapped non-bounce lands, then bounce lands
with a non-bounce land in play to return, then any remaining land - with
ties broken by hand order: when k is the best class present in hand and c
is the first card of class k, selectBestLand returns c. -/
theorem selectBestLand_priority
    (hand pre post : List LandCard) (mana : Nat) (nb : Bool) (c : LandCard) (k : Nat)
    (hsplit : hand = pre ++ c :: post)
    (hc : landPriorityClass c mana nb = some k)
    (hmin : ∀ d ∈ hand, ∀ j, landPriorityClass d mana nb = some j → k ≤ j)
    (hfirst : ∀ d ∈ pre, landPriorityClass d mana nb ≠ some k) :
    selectBestLand hand mana nb = some c := by
  have hk3 : k ≤ 3 := landPriorityClass_le_three c mana nb k hc
  have hnone : ∀ j, j < k →
      hand.find? (fun d => landPriorityClass d mana nb == some j) = none := by
    intro j hj
    rw [List.find?_eq_none]
    intro d hd hbeq
    have := hmin d hd j (by simpa using hbeq)
    omega
  have hsome :
      hand.find? (fun d => landPriorityClass d mana nb == some k) = some c := by
    rw [hsplit]
    apply find?_split
    · intro d hd
      simpa using hfirst d hd
    · simp [hc]
  interval_cases k
  · simp [selectBestLand, hsome, Option.orElse]
  · simp [selectBestLand, hnone 0 (by omega), hsome, Option.orElse]
  · simp [selectBestLand, hnone 0 (by omega), hnone 1 (by omega), hsome,
      Option.orElse]
  · simp [selectBestLand, hnone 0 (by omega), hnone 1 (by omega),
      hnone 2 (by omega), hsome, Option.orElse]

/-- C8 witness: with no untapped mana, no non-bounce land in play, and a
hand of a spell, a tapped land, a forest and a bounce land, the forest
(the first and only untapped non-bounce land, class 1) is selected. -/
theorem selectBestLand_priority_witness :
    selectBestLand [spellCard, gatewayCard, forestCard, bounceCard] 0 false =
      some forestCard :=
  selectBestLand_priority [spellCard, gatewayCard, forestCard, bounceCard]
    [spellCard, gatewayCard] [bounceCard] 0 false forestCard 1
    rfl (by decide)
    (by
      intro d hd j hj
      fin_cases hd <;>
        simp_all [landPriorityClass, spellCard, gatewayCard, forestCard,
          bounceCard] <;> omega)
    (by decide)

/-- C3: the simulation engine is a deterministic function of the deck, the
configuration and the seed - two invocations on identical inputs produce
identical SimulationResults.  The modelled driver threads its
pseudo-random state explicitly and reads no other input. -/
theorem monteCarlo_deterministic (deck : List LandCard) (cfg : EngineConfig)
    (s1 s2 : Nat) (h : s1 = s2) :
    monteCarloModel deck cfg s1 = monteCarloModel deck cfg s2 := by
  rw [h]

/-- C3 witness: two runs at a concrete deck, configuration and seed. -/
theorem monteCarlo_deterministic_witness :
    monteCarloModel sampleDeck sampleEngineConfig 42 =
      monteCarloModel sampleDeck sampleEngineConfig 42 :=
  monteCarlo_deterministic sampleDeck sampleEngineConfig 42 42 rfl

/-- C6: an empty deck or a zero iteration count makes the driver fail fast
with a descriptive error before the iteration loop starts, instead of
returning degenerate statistics: the empty deck is reported first, zero
iterations otherwise, and in either case no results object exists. -/
theorem monteCarlo_rejects_empty_or_zero (deck : List LandCard)
    (cfg : EngineConfig) (seed : Nat)
    (h : deck = [] ∨ cfg.iterations = 0) :
    (deck = [] →
      monteCarloModel deck cfg seed =
        Except.error "Cannot run simulation: the deck is empty") ∧
    (deck ≠ [] → cfg.iterations = 0 →
      monteCarloModel deck cfg seed =
        Except.error "Cannot run simulation: iterations must be at least 1") ∧
    ∀ results : MCResults, monteCarloModel deck cfg seed ≠ Except.ok results := by
  refine ⟨?_, ?_, ?_⟩
  · intro hd
    subst hd
    rfl
  · intro hd hz
    unfold monteCarloModel
    rw [if_neg (by simpa using hd), if_pos hz]
  · intro results hok
    unfold monteCarloModel at hok
    rcases h with hd | hz
    · rw [if_pos (by simp [hd])] at hok
      exact Except.noConfusion hok
    · by_cases hd : deck.isEmpty
      · rw [if_pos hd] at hok
        exact Except.noConfusion hok
      · rw [if_neg hd, if_pos hz] at hok
        exact Except.noConfusion hok

/-- C6 witness: the empty deck is rejected with the descriptive message at
a concrete configuration and seed. -/
theorem monteCarlo_rejects_empty_or_zero_witness :
    monteCarloModel [] sampleEngineConfig 7 =
      Except.error "Cannot run simulation: the deck is empty" :=
  (monteCarlo_rejects_empty_or_zero [] sampleEngineConfig 7 (Or.inl rfl)).1 rfl

/-! ### Helper lemmas for the chart-data theorem -/

/-- Rounding a present non-negative value stays non-negative. -/
theorem safeToFixed_nonneg (q : ℚ) (d : Nat) (hq : 0 ≤ q) :
    0 ≤ safeToFixed (some q) d := by
  unfold safeToFixed
  have h10 : (0 : ℚ) < (10 : ℚ) ^ d := by positivity
  apply div_nonneg _ (le_of_lt h10)
  have hmul : (0 : ℚ) ≤ q * (10 : ℚ) ^ d := mul_nonneg hq (le_of_lt h10)
  have : (0 : ℤ) ≤ round (q * (10 : ℚ) ^ d) := by
    rw [round_eq]
    apply Int.le_floor.mpr
    push_cast
    linarith
  exact_mod_cast this

/-- Rounding a present zero gives zero. -/
theorem safeToFixed_some_zero (d : Nat) : safeToFixed (some 0) d = 0 := by
  simp [safeToFixed]

/-- C10: for a null simulationResults prepareChartData returns null; for a
present one it returns six arrays of length exactly turns whose i-th rows
carry turn = i + 1, every per-turn statistic missing from the results is
treated as 0, and every Lo confidence-band value is the rounded
max(0, mean - stdDev) and hence never negative. -/
theorem prepareChartData_shape (r : SimResultsJS) (turns : Nat) :
    prepareChartData none turns = none ∧
    ∃ d, prepareChartData (some r) turns = some d ∧
      (d.landsData.length = turns ∧ d.manaByColorData.length = turns ∧
        d.lifeLossData.length = turns ∧ d.cardsDrawnData.length = turns ∧
        d.treasureData.length = turns ∧ d.keyCardsData.length = turns) ∧
      (∀ i, i < turns →
        d.landsData.get? i = some (landsRowAt r i) ∧
        d.manaByColorData.get? i = some (manaRowAt r i) ∧
        d.lifeLossData.get? i =
          some (statRowAt r.lifeLossPerTurn r.lifeLossPerTurnStdDev i) ∧
        d.cardsDrawnData.get? i =
          some (statRowAt r.cardsDrawnPerTurn r.cardsDrawnPerTurnStdDev i) ∧
        d.treasureData.get? i =
          some (statRowAt r.treasurePerTurn r.treasurePerTurnStdDev i) ∧
        d.keyCardsData.get? i = some (keyRowAt r i)) ∧
      (∀ i : Nat,
        (landsRowAt r i).turn = i + 1 ∧ (manaRowAt r i).turn = i + 1 ∧
        (statRowAt r.lifeLossPerTurn r.lifeLossPerTurnStdDev i).turn = i + 1 ∧
        (statRowAt r.cardsDrawnPerTurn r.cardsDrawnPerTurnStdDev i).turn = i + 1 ∧
        (statRowAt r.treasurePerTurn r.treasurePerTurnStdDev i).turn = i + 1 ∧
        (keyRowAt r i).turn = i + 1) ∧
      (∀ i : Nat,
        (landsRowAt r i).totalLandsLo =
          safeToFixed (some (max 0 ((optIdx r.landsPerTurn i).getD 0 -
            (optIdx r.landsPerTurnStdDev i).getD 0))) 2 ∧
        0 ≤ (landsRowAt r i).totalLandsLo ∧
        0 ≤ (landsRowAt r i).untappedLandsLo ∧
        0 ≤ (manaRowAt r i).totalManaLo ∧
        0 ≤ (statRowAt r.lifeLossPerTurn r.lifeLossPerTurnStdDev i).lo ∧
        0 ≤ (statRowAt r.cardsDrawnPerTurn r.cardsDrawnPerTurnStdDev i).lo ∧
        0 ≤ (statRowAt r.treasurePerTurn r.treasurePerTurnStdDev i).lo) ∧
      (∀ i : Nat,
        (r.landsPerTurn = none → (landsRowAt r i).totalLands = 0) ∧
        (r.untappedLandsPerTurn = none → (landsRowAt r i).untappedLands = 0) ∧
        (r.totalManaPerTurn = none → (manaRowAt r i).totalMana = 0) ∧
        (r.lifeLossPerTurn = none →
          (statRowAt r.lifeLossPerTurn r.lifeLossPerTurnStdDev i).avg = 0) ∧
        (r.cardsDrawnPerTurn = none →
          (statRowAt r.cardsDrawnPerTurn r.cardsDrawnPerTurnStdDev i).avg = 0) ∧
        (r.treasurePerTurn = none →
          (statRowAt r.treasurePerTurn r.treasurePerTurnStdDev i).avg = 0)) := by
  refine ⟨rfl, _, rfl, ?_, ?_, ?_, ?_, ?_⟩
  · refine ⟨?_, ?_, ?_, ?_, ?_, ?_⟩ <;> simp [prepareChartData]
  · intro i hi
    refine ⟨?_, ?_, ?_, ?_, ?_, ?_⟩ <;>
      simp [prepareChartData, List.getElem?_map, List.getElem?_range hi]
  · intro i
    exact ⟨rfl, rfl, rfl, rfl, rfl, rfl⟩
  · intro i
    refine ⟨rfl, ?_, ?_, ?_, ?_, ?_, ?_⟩ <;>
      exact safeToFixed_nonneg _ 2 (le_max_left 0 _)
  · intro i
    refine ⟨?_, ?_, ?_, ?_, ?_, ?_⟩ <;>
      · intro hnone
        simp [landsRowAt, manaRowAt, statRowAt, hnone, optIdx,
          safeToFixed_some_zero]

/-- C10 witness: the null case, the array length, and the first row of the
lands chart evaluated at a concrete results object with several absent
statistics. -/
theorem prepareChartData_shape_witness :
    prepareChartData none 2 = none ∧
    ∃ d, prepareChartData (some sampleResultsJS) 2 = some d ∧
      d.landsData.length = 2 ∧
      d.landsData.get? 0 = some (landsRowAt sampleResultsJS 0) := by
  obtain ⟨hnone, d, hd, hlen, hget, -, -, -⟩ :=
    prepareChartData_shape sampleResultsJS 2
  exact ⟨hnone, d, hd, hlen.1, (hget 0 (by decide)).1⟩

end MTGMC
